import Mathlib

/-!
Verification of the EaseApply client-side session manager.

The definitions below are a shallow embedding of the frontend authentication
code: the `tokenManager` utilities, the axios request/response interceptors of
`src/Frontend/easeapply/src/api.js` (the revision stored as
`src/unnamed/part_002`), the `authAPI.login`/`authAPI.logout` wrappers, and the
`login`/`logout` actions of the Pinia store `src/Frontend/easeapply/src/stores/auth.js`.
`localStorage` is modelled as a record of the three keys the code uses;
`window.location.href` assignments are counted; every network call to the
token-refresh endpoint is logged.

JavaScript truthiness matters throughout (`if (token)`, `a || b`): `null` and
the empty string are falsy, so `Option String` values are tested with `truthy`.
-/

namespace EaseApply

/-- JS truthiness of a `localStorage.getItem` / optional-string value:
`null` (here `none`) and the empty string are falsy. -/
def truthy : Option String → Bool
  | none => false
  | some s => s ≠ ""

/-- The three `localStorage` keys the code reads and writes:
`authToken`, `access_token`, `refresh_token`. -/
structure Storage where
  authToken : Option String
  accessToken : Option String
  refreshToken : Option String
deriving Repr, DecidableEq

/-- `localStorage` with none of the three keys present. -/
def emptyStorage : Storage :=
  { authToken := none, accessToken := none, refreshToken := none }

namespace tokenManager

/-- `getAccessToken: () => localStorage.getItem('authToken') || localStorage.getItem('access_token')`. -/
def getAccessToken (s : Storage) : Option String :=
  if truthy s.authToken then s.authToken else s.accessToken

/-- `setAccessToken`: writes the token under both the `authToken` and
`access_token` keys. -/
def setAccessToken (t : String) (s : Storage) : Storage :=
  { s with authToken := some t, accessToken := some t }

/-- `getRefreshToken: () => localStorage.getItem('refresh_token')`. -/
def getRefreshToken (s : Storage) : Option String :=
  s.refreshToken

/-- `setRefreshToken: (token) => localStorage.setItem('refresh_token', token)`. -/
def setRefreshToken (t : String) (s : Storage) : Storage :=
  { s with refreshToken := some t }

/-- `clearTokens`: removes all three keys. -/
def clearTokens (_ : Storage) : Storage :=
  emptyStorage

end tokenManager

/-- Which axios client a network request goes through: the configured `api`
instance (with both interceptors registered) or the bare imported `axios`. -/
inductive Client where
  | apiInstance
  | bareAxios
deriving Repr, DecidableEq

/-- A request body, as far as the modelled calls need:
`{ refresh: <token> }` or nothing. -/
inductive RequestBody where
  | refreshOf (tok : String)
deriving Repr, DecidableEq

/-- An outbound network request: which client issues it, its url, its body and
its `Authorization` header (if any). -/
structure NetRequest where
  client : Client
  url : String
  body : Option RequestBody
  authHeader : Option String
deriving Repr, DecidableEq

/-- The token-refresh call issued inside the response interceptor:
`axios.post(API_BASE_URL + '/api/users/token/refresh/', { refresh: refreshToken })`.
It goes through the bare `axios` import, not the `api` instance, so no request
interceptor runs and no `Authorization` header is attached. -/
def refreshRequest (rt : String) : NetRequest :=
  { client := .bareAxios
    url := "/api/users/token/refresh/"
    body := some (.refreshOf rt)
    authHeader := none }

/-- The request sent by `authAPI.logout`: `api.post('/users/logout/')` — the
`post` call passes no data argument, so the request has no body.  (The
`services/api.js` revision's `logout: () => api.post('/users/logout/')` is the
same request.)  The `api` instance's request interceptor may later attach an
`Authorization` header; it never adds a body. -/
def logoutRequest : NetRequest :=
  { client := .apiInstance
    url := "/users/logout/"
    body := none
    authHeader := none }

/-- Only the `api` instance has the 401-handling response interceptor
registered; responses to bare-`axios` requests are delivered directly to their
caller. -/
def interceptedBy401Handler (r : NetRequest) : Bool :=
  r.client = .apiInstance

/-- The request interceptor of the `api` instance: reads the current access
token and, when truthy, sets `config.headers.Authorization = 'Bearer ' + token`. -/
def requestInterceptor (s : Storage) (r : NetRequest) : NetRequest :=
  match tokenManager.getAccessToken s with
  | some t => if t ≠ "" then { r with authHeader := some ("Bearer " ++ t) } else r
  | none => r

/-- The mutable browser-side world the interceptor touches: `localStorage`,
`window.location.href` (we record the last assigned value and count the
assignments), and the log of network calls made to the token-refresh endpoint. -/
structure World where
  storage : Storage
  location : Option String
  redirects : Nat
  refreshLog : List NetRequest
deriving Repr, DecidableEq

/-- The axios request config of the failed original request: its `_retry`
marker (called `retryFlag` here; absent was modelled as `false`), its
`Authorization` header and its url. -/
structure Config where
  retryFlag : Bool
  authHeader : Option String
  url : String
deriving Repr, DecidableEq

/-- Outcome of the backend's token-refresh endpoint for a given refresh token:
`{ access: <token> }` on success, an error response otherwise. -/
inductive RefreshResult where
  | success (access : String)
  | failure
deriving Repr, DecidableEq

/-- What the response-error interceptor returns to the code awaiting the
original request: `api(originalRequest)` (the request is re-dispatched and that
response is returned to the caller), `Promise.reject(error)` with the original
error, or `Promise.reject(refreshError)`. -/
inductive HandlerResult where
  | retried (cfg : Config)
  | rejectedOriginal
  | rejectedRefreshError
deriving Repr, DecidableEq

/-- The error branch of `api.interceptors.response.use`, translated line by
line.  `rb` is the backend's behaviour on a refresh call, `status` is
`error.response?.status` (`none` when no response was received), `cfg` is
`error.config`.

```
if (error.response?.status === 401 && !originalRequest._retry) {
  originalRequest._retry = true
  const refreshToken = tokenManager.getRefreshToken()
  if (refreshToken) {
    try {
      const response = await axios.post(.../token/refresh/, {refresh: refreshToken})
      tokenManager.setAccessToken(response.data.access)
      originalRequest.headers.Authorization = 'Bearer ' + newAccessToken
      return api(originalRequest)
    } catch (refreshError) {
      tokenManager.clearTokens(); window.location.href = '/login'
      return Promise.reject(refreshError)
    }
  } else {
    tokenManager.clearTokens(); window.location.href = '/login'
  }
}
return Promise.reject(error)
```
-/
def responseErrorInterceptor (rb : String → RefreshResult) (status : Option Nat)
    (cfg : Config) (w : World) : HandlerResult × World :=
  if status = some 401 ∧ cfg.retryFlag = false then
    let cfg := { cfg with retryFlag := true }
    let refreshToken := tokenManager.getRefreshToken w.storage
    if truthy refreshToken then
      let rt := refreshToken.getD ""
      let w := { w with refreshLog := w.refreshLog ++ [refreshRequest rt] }
      match rb rt with
      | .success newAccessToken =>
          let w := { w with storage := tokenManager.setAccessToken newAccessToken w.storage }
          let cfg := { cfg with authHeader := some ("Bearer " ++ newAccessToken) }
          (.retried cfg, w)
      | .failure =>
          let w := { w with storage := tokenManager.clearTokens w.storage
                            location := some "/login"
                            redirects := w.redirects + 1 }
          (.rejectedRefreshError, w)
    else
      let w := { w with storage := tokenManager.clearTokens w.storage
                        location := some "/login"
                        redirects := w.redirects + 1 }
      (.rejectedOriginal, w)
  else
    (.rejectedOriginal, w)

/-- The Pinia auth store's reactive state (`stores/auth.js`):
`user`, `token`, `refreshToken`, `isLoading`, `error`. -/
structure Session where
  user : Option String
  token : Option String
  refreshToken : Option String
  isLoading : Bool
  error : Option String
deriving Repr, DecidableEq

/-- `isAuthenticated = computed(() => !!token.value)`. -/
def isAuthenticated (s : Session) : Bool :=
  truthy s.token

/-- The whole client state: the browser world plus the Pinia session store.
`api.js` imports neither Pinia nor the store, so the interceptor can only act
on the `World` half. -/
structure AppState where
  world : World
  session : Session
deriving Repr, DecidableEq

/-- The response-error interceptor lifted to the whole client state: it touches
only `localStorage`, `window.location` and the network, never the Pinia store. -/
def responseErrorInterceptorApp (rb : String → RefreshResult) (status : Option Nat)
    (cfg : Config) (st : AppState) : HandlerResult × AppState :=
  let (r, w) := responseErrorInterceptor rb status cfg st.world
  (r, { st with world := w })

/-- Sequential processing of a batch of requests that have each received a 401:
each error handler runs to completion before the next starts.  This is a
reachable event-loop schedule (a handler that suspends at its refresh `await`
can resume before the next handler is scheduled); the code keeps no shared
in-flight flag that could make handlers observe one another. -/
def processAll (rb : String → RefreshResult) (cfgs : List Config) (st : AppState) :
    List HandlerResult × AppState :=
  match cfgs with
  | [] => ([], st)
  | c :: rest =>
      let (r, st') := responseErrorInterceptorApp rb (some 401) c st
      let (rs, st'') := processAll rb rest st'
      (r :: rs, st'')

/-- Outcome, as observed by its caller, of the awaited `api.post('/users/logout/')`
call (after the interceptor pipeline settled it): the promise either resolved
or rejected. -/
inductive PostOutcome where
  | resolved
  | rejected
deriving Repr, DecidableEq

/-- Result of `authAPI.logout`: the resulting `localStorage` plus whether the
call rethrew its error to the caller. -/
structure LogoutResult where
  storage : Storage
  thrown : Bool
deriving Repr, DecidableEq

namespace authAPI

/-- `authAPI.logout` (api.js): `try { await api.post('/users/logout/') } finally
{ tokenManager.clearTokens() }`.  The `finally` clears all three keys on every
path (overwriting whatever the interceptor pipeline may have stored meanwhile);
having no `catch`, a rejection propagates to the caller after the `finally`. -/
def logout (o : PostOutcome) (s : Storage) : LogoutResult :=
  { storage := tokenManager.clearTokens s, thrown := o = .rejected }

end authAPI

/-- The successful login response body `{ access, refresh, user }`; fields are
optional because the code guards them with truthiness checks. -/
structure LoginResponse where
  access : Option String
  refresh : Option String
  user : Option String
deriving Repr, DecidableEq

namespace authAPI

/-- The storage effect of `authAPI.login` (api.js) on a successful response:
`if (access) tokenManager.setAccessToken(access); if (refresh)
tokenManager.setRefreshToken(refresh)`. -/
def login (resp : LoginResponse) (s : Storage) : Storage :=
  let s := match resp.access with
    | some a => if a ≠ "" then tokenManager.setAccessToken a s else s
    | none => s
  match resp.refresh with
  | some r => if r ≠ "" then tokenManager.setRefreshToken r s else s
  | none => s

end authAPI

namespace useAuthStore

/-- The `logout` action of `stores/auth.js`:
`try { await authAPI.logout() } catch (err) { console.error(...) } finally
{ token = refreshToken = user = null; localStorage.removeItem('access_token');
localStorage.removeItem('refresh_token') }`.  The `catch` swallows any
rejection (including the one `authAPI.logout` rethrows), so the action is a
total function — it returns normally for every backend outcome. -/
def logout (o : PostOutcome) (sess : Session) (s : Storage) : Session × Storage :=
  let r := authAPI.logout o s
  let sess := { sess with token := none, refreshToken := none, user := none }
  let s := { r.storage with accessToken := none, refreshToken := none }
  (sess, s)

/-- The success path of the `login` action of `stores/auth.js`:
`isLoading = true; error = null; await authAPI.login(credentials);` then
`token = access; refreshToken = refresh; user = userData;
localStorage.setItem('access_token', access);
localStorage.setItem('refresh_token', refresh);` and `finally isLoading = false`. -/
def login (resp : LoginResponse) (sess : Session) (s : Storage) : Session × Storage :=
  let s := authAPI.login resp s
  let sess := { sess with token := resp.access
                          refreshToken := resp.refresh
                          user := resp.user
                          error := none
                          isLoading := false }
  let s := { s with accessToken := resp.access, refreshToken := resp.refresh }
  (sess, s)

end useAuthStore

/-- `a || b` on optional strings, with JS truthiness. -/
def jsOr (a b : Option String) : Option String :=
  if truthy a then a else b

/-- The error payload the store's `catch` inspects:
`err.response?.status`, `err.response?.data?.message`, `err.response?.data?.detail`. -/
structure ErrorResponse where
  status : Option Nat
  message : Option String
  detail : Option String
deriving Repr, DecidableEq

/-- `err.response?.data?.message || err.response?.data?.detail || 'Login failed'`. -/
def loginFailureMessage (e : ErrorResponse) : String :=
  (jsOr e.message (jsOr e.detail (some "Login failed"))).getD ""

/-- The failure path of the `login` action of `stores/auth.js`: the rejected
login response is first processed by the `api` response interceptor (whose
settled rejection is what `await authAPI.login` throws), then the store's
`catch` sets `error` from the payload and the `finally` clears `isLoading`.
This models the runs in which the interceptor rejects (it always does when no
refresh token is stored, the situation of the theorems below). -/
def loginOnError (rb : String → RefreshResult) (e : ErrorResponse) (cfg : Config)
    (sess : Session) (w : World) : Session × World :=
  let (_, w) := responseErrorInterceptor rb e.status cfg w
  let sess := { sess with error := some (loginFailureMessage e), isLoading := false }
  (sess, w)

/-! Concrete test fixtures used to evaluate the model on closed inputs. -/

/-- Fixture: a `localStorage` holding an access token and a refresh token. -/
def sampleStorage : Storage :=
  { authToken := some "acc", accessToken := some "acc", refreshToken := some "ref" }

/-- Fixture: the browser world of an authenticated tab. -/
def sampleWorld : World :=
  { storage := sampleStorage, location := none, redirects := 0, refreshLog := [] }

/-- Fixture: the browser world of a tab with no stored tokens. -/
def emptyWorld : World :=
  { storage := emptyStorage, location := none, redirects := 0, refreshLog := [] }

/-- Fixture: an authenticated Pinia session. -/
def sampleSession : Session :=
  { user := some "u", token := some "acc", refreshToken := some "ref",
    isLoading := false, error := none }

/-- Fixture: an unauthenticated Pinia session. -/
def anonSession : Session :=
  { user := none, token := none, refreshToken := none, isLoading := false, error := none }

/-- Fixture: authenticated app state. -/
def sampleApp : AppState :=
  { world := sampleWorld, session := sampleSession }

/-- Fixture: app state with no stored tokens. -/
def emptyApp : AppState :=
  { world := emptyWorld, session := sampleSession }

/-- Fixture: a request config that has not been retried. -/
def freshCfg : Config :=
  { retryFlag := false, authHeader := some "Bearer acc", url := "/jobs/" }

/-- Fixture: a request config whose `_retry` marker is already set. -/
def retriedCfg : Config :=
  { retryFlag := true, authHeader := some "Bearer acc", url := "/jobs/" }

/-- Fixture: a backend whose refresh endpoint always succeeds with `"newacc"`. -/
def rbAlwaysOk : String → RefreshResult :=
  fun _ => .success "newacc"

/-- Fixture: a backend whose refresh endpoint always fails. -/
def rbAlwaysFail : String → RefreshResult :=
  fun _ => .failure

/-- Fixture: a login error payload with a server-reported message. -/
def sampleErr : ErrorResponse :=
  { status := some 401, message := some "Invalid credentials", detail := none }

/-- Fixture: a successful login response body. -/
def sampleLoginResponse : LoginResponse :=
  { access := some "acc", refresh := some "ref", user := some "u" }

/-! Helper lemmas shared by the claim theorems. -/

/-- Unfolding `processAll` on a cons cell. -/
theorem processAll_cons (rb : String → RefreshResult) (c : Config) (rest : List Config)
    (st : AppState) :
    processAll rb (c :: rest) st =
      ((responseErrorInterceptorApp rb (some 401) c st).1 ::
        (processAll rb rest (responseErrorInterceptorApp rb (some 401) c st).2).1,
       (processAll rb rest (responseErrorInterceptorApp rb (some 401) c st).2).2) :=
  rfl

/-- Unfolding `processAll` on the empty list. -/
theorem processAll_nil (rb : String → RefreshResult) (st : AppState) :
    processAll rb [] st = ([], st) :=
  rfl

/-- One un-retried 401 whose refresh succeeds: the handler logs one refresh
call, persists the new token, and re-dispatches the request marked retried,
with the new bearer header; the session half of the state is untouched. -/
theorem interceptorApp_success_step (rb : String → RefreshResult) (tok rt : String)
    (cfg : Config) (st : AppState) (hc : cfg.retryFlag = false)
    (hrt : st.world.storage.refreshToken = some rt) (hne : rt ≠ "")
    (hrb : rb rt = RefreshResult.success tok) :
    responseErrorInterceptorApp rb (some 401) cfg st =
      (HandlerResult.retried { cfg with retryFlag := true,
                                        authHeader := some ("Bearer " ++ tok) },
       { st with world := { st.world with
            storage := tokenManager.setAccessToken tok st.world.storage,
            refreshLog := st.world.refreshLog ++ [refreshRequest rt] } }) := by
  have h1 : truthy (some rt) = true := by simp [truthy, hne]
  simp [responseErrorInterceptorApp, responseErrorInterceptor, tokenManager.getRefreshToken,
        hrt, hc, h1, hrb]

/-- One un-retried 401 whose refresh fails (or that finds no refresh token):
the handler rejects, clears the three `localStorage` keys, assigns
`window.location.href = '/login'` once, and leaves the session half untouched. -/
theorem interceptorApp_failure_step (rb : String → RefreshResult) (cfg : Config)
    (st : AppState) (hc : cfg.retryFlag = false)
    (hrb : ∀ t, rb t = RefreshResult.failure) :
    ((responseErrorInterceptorApp rb (some 401) cfg st).1 = HandlerResult.rejectedRefreshError ∨
      (responseErrorInterceptorApp rb (some 401) cfg st).1 = HandlerResult.rejectedOriginal) ∧
    (responseErrorInterceptorApp rb (some 401) cfg st).2.world.storage = emptyStorage ∧
    (responseErrorInterceptorApp rb (some 401) cfg st).2.world.redirects
      = st.world.redirects + 1 ∧
    (responseErrorInterceptorApp rb (some 401) cfg st).2.world.location = some "/login" ∧
    (responseErrorInterceptorApp rb (some 401) cfg st).2.session = st.session := by
  cases h2 : truthy (tokenManager.getRefreshToken st.world.storage) <;>
    simp [responseErrorInterceptorApp, responseErrorInterceptor, tokenManager.clearTokens,
          hc, h2, hrb]

/-- C2: a request whose `_retry` marker is set and which receives another 401
is surfaced to the caller as a terminal rejection of the original error, with
no refresh call and no state change; and every request the handler re-dispatches
carries the `_retry` marker, so it can never be retried a second time. -/
theorem retry_at_most_once (rb : String → RefreshResult) (status : Option Nat)
    (cfg cfg' : Config) (w w' : World) :
    (cfg.retryFlag = true →
      responseErrorInterceptor rb status cfg w = (HandlerResult.rejectedOriginal, w)) ∧
    (responseErrorInterceptor rb status cfg w = (HandlerResult.retried cfg', w') →
      cfg'.retryFlag = true) := by
  constructor
  · intro h
    simp [responseErrorInterceptor, h]
  · intro h
    by_cases h1 : status = some 401 ∧ cfg.retryFlag = false
    · cases h2 : truthy (tokenManager.getRefreshToken w.storage) with
      | false => simp [responseErrorInterceptor, h1, h2] at h
      | true =>
        cases hr : rb ((tokenManager.getRefreshToken w.storage).getD "") with
        | success tok =>
          simp [responseErrorInterceptor, h1, h2, hr] at h
          rw [← h.1]
        | failure => simp [responseErrorInterceptor, h1, h2, hr] at h
    · simp [responseErrorInterceptor, if_neg h1] at h

/-- C2 witness: a retried request hitting another 401 is rejected unchanged. -/
theorem retry_at_most_once_witness :
    responseErrorInterceptor rbAlwaysOk (some 401) retriedCfg sampleWorld
      = (HandlerResult.rejectedOriginal, sampleWorld) :=
  (retry_at_most_once rbAlwaysOk (some 401) retriedCfg retriedCfg sampleWorld sampleWorld).1 rfl

/-- C4: an un-retried request that receives a 401 while a truthy refresh token
is stored, when the refresh exchange succeeds, has the new access token
persisted under both storage keys, is re-dispatched with
`Authorization: Bearer <new token>` and the `_retry` marker set (that retried
response is what the handler returns to the caller), and the Pinia session —
hence `isAuthenticated` — is unchanged. -/
theorem refresh_success_transparent_retry (rb : String → RefreshResult) (tok rt : String)
    (cfg : Config) (st : AppState) (hc : cfg.retryFlag = false)
    (hrt : st.world.storage.refreshToken = some rt) (hne : rt ≠ "")
    (hrb : rb rt = RefreshResult.success tok) :
    responseErrorInterceptorApp rb (some 401) cfg st =
      (HandlerResult.retried { cfg with retryFlag := true,
                                        authHeader := some ("Bearer " ++ tok) },
       { st with world := { st.world with
            storage := tokenManager.setAccessToken tok st.world.storage,
            refreshLog := st.world.refreshLog ++ [refreshRequest rt] } }) ∧
    (responseErrorInterceptorApp rb (some 401) cfg st).2.session = st.session ∧
    isAuthenticated (responseErrorInterceptorApp rb (some 401) cfg st).2.session
      = isAuthenticated st.session ∧
    (responseErrorInterceptorApp rb (some 401) cfg st).2.world.storage.authToken = some tok ∧
    (responseErrorInterceptorApp rb (some 401) cfg st).2.world.storage.accessToken
      = some tok := by
  have h := interceptorApp_success_step rb tok rt cfg st hc hrt hne hrb
  refine ⟨h, ?_, ?_, ?_, ?_⟩ <;> simp [h, tokenManager.setAccessToken]

/-- C4 witness: the transparent refresh-and-retry at a concrete state. -/
theorem refresh_success_transparent_retry_witness :
    responseErrorInterceptorApp rbAlwaysOk (some 401) freshCfg sampleApp =
      (HandlerResult.retried { freshCfg with retryFlag := true,
                                             authHeader := some ("Bearer " ++ "newacc") },
       { sampleApp with world := { sampleApp.world with
            storage := tokenManager.setAccessToken "newacc" sampleApp.world.storage,
            refreshLog := sampleApp.world.refreshLog ++ [refreshRequest "ref"] } }) ∧
    (responseErrorInterceptorApp rbAlwaysOk (some 401) freshCfg sampleApp).2.session
      = sampleApp.session ∧
    isAuthenticated (responseErrorInterceptorApp rbAlwaysOk (some 401) freshCfg sampleApp).2.session
      = isAuthenticated sampleApp.session ∧
    (responseErrorInterceptorApp rbAlwaysOk (some 401) freshCfg
      sampleApp).2.world.storage.authToken = some "newacc" ∧
    (responseErrorInterceptorApp rbAlwaysOk (some 401) freshCfg
      sampleApp).2.world.storage.accessToken = some "newacc" :=
  refresh_success_transparent_retry rbAlwaysOk "newacc" "ref" freshCfg sampleApp rfl rfl
    (by decide) rfl

/-- C5: an un-retried request that receives a 401 while no truthy refresh token
is stored is rejected with the original error, with no refresh network call;
the stored credentials are cleared and `window.location.href = '/login'` is
assigned. -/
theorem no_refresh_token_immediate_failure (rb : String → RefreshResult) (cfg : Config)
    (st : AppState) (hc : cfg.retryFlag = false)
    (ht : truthy st.world.storage.refreshToken = false) :
    responseErrorInterceptorApp rb (some 401) cfg st =
      (HandlerResult.rejectedOriginal,
       { st with world := { st.world with
            storage := emptyStorage,
            location := some "/login",
            redirects := st.world.redirects + 1 } }) ∧
    (responseErrorInterceptorApp rb (some 401) cfg st).2.world.refreshLog
      = st.world.refreshLog := by
  have h : responseErrorInterceptorApp rb (some 401) cfg st =
      (HandlerResult.rejectedOriginal,
       { st with world := { st.world with
            storage := emptyStorage,
            location := some "/login",
            redirects := st.world.redirects + 1 } }) := by
    simp [responseErrorInterceptorApp, responseErrorInterceptor, tokenManager.getRefreshToken,
          tokenManager.clearTokens, hc, ht]
  exact ⟨h, by simp [h]⟩

/-- C5 witness: the no-refresh-token branch at a concrete state. -/
theorem no_refresh_token_immediate_failure_witness :
    responseErrorInterceptorApp rbAlwaysOk (some 401) freshCfg emptyApp =
      (HandlerResult.rejectedOriginal,
       { emptyApp with world := { emptyApp.world with
            storage := emptyStorage,
            location := some "/login",
            redirects := emptyApp.world.redirects + 1 } }) ∧
    (responseErrorInterceptorApp rbAlwaysOk (some 401) freshCfg emptyApp).2.world.refreshLog
      = emptyApp.world.refreshLog :=
  no_refresh_token_immediate_failure rbAlwaysOk freshCfg emptyApp rfl rfl

/-- C6: the store's `logout` action is a total function of the backend outcome
(the `catch` swallows any rejection, including the one `authAPI.logout`
rethrows, so it never throws), and on every path — in particular when already
unauthenticated — it leaves the session with `token`, `refreshToken` and `user`
cleared (`isAuthenticated = false`) and the credential store empty. -/
theorem logout_total_and_clears (o : PostOutcome) (sess : Session) (s : Storage) :
    isAuthenticated (useAuthStore.logout o sess s).1 = false ∧
    (useAuthStore.logout o sess s).1.token = none ∧
    (useAuthStore.logout o sess s).1.refreshToken = none ∧
    (useAuthStore.logout o sess s).1.user = none ∧
    (useAuthStore.logout o sess s).2 = emptyStorage := by
  simp [useAuthStore.logout, authAPI.logout, tokenManager.clearTokens, isAuthenticated,
        truthy, emptyStorage]

/-- C9 counterexample: the logout request the client builds
(`api.post('/users/logout/')`) has no body at all, so in particular it does not
carry `{ refresh: "ref" }` even when `"ref"` is the stored refresh token. -/
theorem logout_request_no_refresh_body :
    logoutRequest.body ≠ some (RequestBody.refreshOf "ref") ∧
    logoutRequest.body = none := by
  decide

/-- C9 (amended): every logout request the client sends — also after the `api`
request interceptor has processed it against any storage — carries no request
body; the stored refresh token is not sent to the logout endpoint. -/
theorem logout_request_body_none (s : Storage) :
    (requestInterceptor s logoutRequest).body = none ∧ logoutRequest.body = none := by
  constructor
  · cases h : tokenManager.getAccessToken s with
    | none => simp [requestInterceptor, h, logoutRequest]
    | some t =>
      by_cases ht : t = "" <;> simp [requestInterceptor, h, ht, logoutRequest]
  · rfl

/-- C10: every request the 401 handler appends to the refresh log is issued
through the bare `axios` import: it carries no `Authorization` header and is
not subject to the `api` instance's response interceptor, so a 401 returned by
the refresh endpoint itself is delivered to the handler's own `catch` and can
never re-enter the 401 handler. -/
theorem refresh_uses_bare_axios (rb : String → RefreshResult) (status : Option Nat)
    (cfg : Config) (w : World) (req : NetRequest)
    (hmem : req ∈ (responseErrorInterceptor rb status cfg w).2.refreshLog) :
    req ∈ w.refreshLog ∨
      (req.client = Client.bareAxios ∧ req.authHeader = none ∧
        interceptedBy401Handler req = false) := by
  by_cases h1 : status = some 401 ∧ cfg.retryFlag = false
  · cases h2 : truthy (tokenManager.getRefreshToken w.storage) with
    | false =>
      simp [responseErrorInterceptor, h1, h2] at hmem
      exact Or.inl hmem
    | true =>
      cases hr : rb ((tokenManager.getRefreshToken w.storage).getD "") with
      | success tok =>
        simp only [responseErrorInterceptor, h1, h2, hr, if_true, and_self, if_pos,
          List.mem_append, List.mem_singleton] at hmem
        rcases hmem with h | h
        · exact Or.inl h
        · subst h
          exact Or.inr ⟨rfl, rfl, rfl⟩
      | failure =>
        simp only [responseErrorInterceptor, h1, h2, hr, if_true, and_self, if_pos,
          List.mem_append, List.mem_singleton] at hmem
        rcases hmem with h | h
        · exact Or.inl h
        · subst h
          exact Or.inr ⟨rfl, rfl, rfl⟩
  · simp [responseErrorInterceptor, if_neg h1] at hmem
    exact Or.inl hmem

/-- C10 witness: the concrete refresh call logged by a concrete handler run is
a bare-axios request with no `Authorization` header, outside the interceptor. -/
theorem refresh_uses_bare_axios_witness :
    refreshRequest "ref" ∈ sampleWorld.refreshLog ∨
      ((refreshRequest "ref").client = Client.bareAxios ∧
        (refreshRequest "ref").authHeader = none ∧
        interceptedBy401Handler (refreshRequest "ref") = false) :=
  refresh_uses_bare_axios rbAlwaysOk (some 401) freshCfg sampleWorld (refreshRequest "ref")
    (by decide)

/-- C1 counterexample: two concurrent requests that each receive a 401 while no
refresh is in flight (both un-retried, a refresh token stored, the backend
refresh succeeding) issue two refresh network calls, not one: the code keeps no
in-flight flag, so the second handler starts its own exchange. -/
theorem concurrent_401s_two_refresh_calls :
    (processAll rbAlwaysOk [freshCfg, freshCfg] sampleApp).2.world.refreshLog.length = 2 ∧
    (processAll rbAlwaysOk [freshCfg, freshCfg] sampleApp).2.world.refreshLog.length ≠ 1 := by
  decide

/-- C1 (amended): there is no single-flight coordination — each of the N
concurrent 401-failing, un-retried requests issues its own refresh network call
(N calls in total), and each request is retried carrying the bearer token
produced by its own refresh exchange. -/
theorem per_request_refresh_no_single_flight (rb : String → RefreshResult) (tok : String)
    (cfgs : List Config) (st : AppState)
    (hc : ∀ c ∈ cfgs, c.retryFlag = false)
    (ht : truthy st.world.storage.refreshToken = true)
    (hrb : ∀ t, rb t = RefreshResult.success tok) :
    (processAll rb cfgs st).2.world.refreshLog.length
      = st.world.refreshLog.length + cfgs.length ∧
    ∀ r ∈ (processAll rb cfgs st).1, ∃ cfg,
      r = HandlerResult.retried cfg ∧ cfg.retryFlag = true ∧
        cfg.authHeader = some ("Bearer " ++ tok) := by
  induction cfgs generalizing st with
  | nil => simp [processAll_nil]
  | cons c rest ih =>
    have hc0 : c.retryFlag = false := hc c (List.mem_cons_self c rest)
    obtain ⟨rt, hrt, hne⟩ : ∃ u, st.world.storage.refreshToken = some u ∧ u ≠ "" := by
      cases h : st.world.storage.refreshToken with
      | none => rw [h] at ht; simp [truthy] at ht
      | some v =>
        refine ⟨v, rfl, ?_⟩
        rw [h] at ht
        simpa [truthy] using ht
    have hstep := interceptorApp_success_step rb tok rt c st hc0 hrt hne (hrb rt)
    have ht' : truthy
        ((responseErrorInterceptorApp rb (some 401) c st).2.world.storage.refreshToken)
        = true := by
      rw [hstep]
      simp [tokenManager.setAccessToken, hrt, truthy, hne]
    have hrest := ih ((responseErrorInterceptorApp rb (some 401) c st).2)
      (fun x hx => hc x (List.mem_cons_of_mem c hx)) ht'
    rw [processAll_cons]
    constructor
    · have hlen : (responseErrorInterceptorApp rb (some 401) c st).2.world.refreshLog.length
          = st.world.refreshLog.length + 1 := by
        rw [hstep]
        simp
      rw [hrest.1, hlen]
      simp
      omega
    · intro r hr
      rcases List.mem_cons.mp hr with h | h
      · subst h
        rw [hstep]
        exact ⟨{ c with retryFlag := true, authHeader := some ("Bearer " ++ tok) },
          rfl, rfl, rfl⟩
      · exact hrest.2 r h

/-- C1 witness: the amended per-request-refresh law at the concrete two-request
run — two 401s, two logged refresh calls, both retried with the new bearer. -/
theorem per_request_refresh_no_single_flight_witness :
    (processAll rbAlwaysOk [freshCfg, freshCfg] sampleApp).2.world.refreshLog.length
      = sampleApp.world.refreshLog.length + 2 ∧
    ∀ r ∈ (processAll rbAlwaysOk [freshCfg, freshCfg] sampleApp).1, ∃ cfg,
      r = HandlerResult.retried cfg ∧ cfg.retryFlag = true ∧
        cfg.authHeader = some ("Bearer " ++ "newacc") :=
  per_request_refresh_no_single_flight rbAlwaysOk "newacc" [freshCfg, freshCfg] sampleApp
    (by decide) rfl (fun _ => rfl)

/-- A run shared by C3's auxiliary reasoning: all-failure processing keeps the
session, increments the redirect count once per request, rejects every
request, and (once at least one request was processed) leaves the credential
store empty with the location set to `/login`. -/
theorem processAll_failure_aux (rb : String → RefreshResult) (cfgs : List Config)
    (st : AppState)
    (hc : ∀ c ∈ cfgs, c.retryFlag = false)
    (hrb : ∀ t, rb t = RefreshResult.failure) :
    (processAll rb cfgs st).2.session = st.session ∧
    (processAll rb cfgs st).2.world.redirects = st.world.redirects + cfgs.length ∧
    (∀ r ∈ (processAll rb cfgs st).1,
      r = HandlerResult.rejectedRefreshError ∨ r = HandlerResult.rejectedOriginal) ∧
    (cfgs ≠ [] → (processAll rb cfgs st).2.world.storage = emptyStorage ∧
      (processAll rb cfgs st).2.world.location = some "/login") := by
  induction cfgs generalizing st with
  | nil => simp [processAll_nil]
  | cons c rest ih =>
    have hc0 : c.retryFlag = false := hc c (List.mem_cons_self c rest)
    have hstep := interceptorApp_failure_step rb c st hc0 hrb
    have hrest := ih ((responseErrorInterceptorApp rb (some 401) c st).2)
      (fun x hx => hc x (List.mem_cons_of_mem c hx))
    rw [processAll_cons]
    refine ⟨?_, ?_, ?_, ?_⟩
    · rw [hrest.1, hstep.2.2.2.2]
    · rw [hrest.2.1, hstep.2.2.1]
      simp
      omega
    · intro r hr
      rcases List.mem_cons.mp hr with h | h
      · subst h
        exact hstep.1
      · exact hrest.2.2.1 r h
    · intro _
      cases rest with
      | nil =>
        rw [processAll_nil]
        exact ⟨hstep.2.1, hstep.2.2.2.1⟩
      | cons d ds =>
        exact hrest.2.2.2 (by simp)

/-- C3 counterexample: two concurrent requests whose refreshes fail drive two
assignments of `window.location.href = '/login'` (not exactly one), and reach a
state in which the credential store is empty while the Pinia session still has
`isAuthenticated = true` — the interceptor never touches the session store, so
the two are not cleared atomically. -/
theorem refresh_failure_redirect_fires_per_request :
    (processAll rbAlwaysFail [freshCfg, freshCfg] sampleApp).2.world.redirects = 2 ∧
    (processAll rbAlwaysFail [freshCfg, freshCfg] sampleApp).2.world.redirects ≠ 1 ∧
    (processAll rbAlwaysFail [freshCfg, freshCfg] sampleApp).2.world.storage = emptyStorage ∧
    isAuthenticated (processAll rbAlwaysFail [freshCfg, freshCfg] sampleApp).2.session
      = true := by
  decide

/-- C3 (amended): on refresh failure each failing request's handler clears the
credential store, rejects its caller, and assigns the redirect location — the
assignment happens once per failing request (N times for N requests), not
exactly once — while the in-memory session state is not mutated by the
interceptor at all (it is reset only by the page navigation that follows). -/
theorem refresh_failure_clears_storage_per_request (rb : String → RefreshResult)
    (cfgs : List Config) (st : AppState)
    (hc : ∀ c ∈ cfgs, c.retryFlag = false)
    (hrb : ∀ t, rb t = RefreshResult.failure)
    (hne : cfgs ≠ []) :
    (processAll rb cfgs st).2.session = st.session ∧
    (processAll rb cfgs st).2.world.storage = emptyStorage ∧
    (processAll rb cfgs st).2.world.redirects = st.world.redirects + cfgs.length ∧
    (processAll rb cfgs st).2.world.location = some "/login" ∧
    ∀ r ∈ (processAll rb cfgs st).1,
      r = HandlerResult.rejectedRefreshError ∨ r = HandlerResult.rejectedOriginal := by
  have h := processAll_failure_aux rb cfgs st hc hrb
  exact ⟨h.1, (h.2.2.2 hne).1, h.2.1, (h.2.2.2 hne).2, h.2.2.1⟩

/-- C3 witness: the amended law at the concrete two-request failing run. -/
theorem refresh_failure_clears_storage_per_request_witness :
    (processAll rbAlwaysFail [freshCfg, freshCfg] sampleApp).2.session
      = sampleApp.session ∧
    (processAll rbAlwaysFail [freshCfg, freshCfg] sampleApp).2.world.storage
      = emptyStorage ∧
    (processAll rbAlwaysFail [freshCfg, freshCfg] sampleApp).2.world.redirects
      = sampleApp.world.redirects + 2 ∧
    (processAll rbAlwaysFail [freshCfg, freshCfg] sampleApp).2.world.location
      = some "/login" ∧
    ∀ r ∈ (processAll rbAlwaysFail [freshCfg, freshCfg] sampleApp).1,
      r = HandlerResult.rejectedRefreshError ∨ r = HandlerResult.rejectedOriginal :=
  refresh_failure_clears_storage_per_request rbAlwaysFail [freshCfg, freshCfg] sampleApp
    (by decide) (fun _ => rfl) (by decide)

/-- C7: after a login on which the backend responds with truthy `access` and
`refresh` tokens and a `user` profile, the session has `isAuthenticated = true`
and `user` populated with the returned profile, and both tokens are persisted
in storage (the access token under both of its keys). -/
theorem login_success_postcondition (resp : LoginResponse) (sess : Session) (s : Storage)
    (a r u : String) (ha : resp.access = some a) (hane : a ≠ "")
    (hr : resp.refresh = some r) (hrne : r ≠ "") (hu : resp.user = some u) :
    isAuthenticated (useAuthStore.login resp sess s).1 = true ∧
    (useAuthStore.login resp sess s).1.user = some u ∧
    (useAuthStore.login resp sess s).1.token = some a ∧
    tokenManager.getAccessToken (useAuthStore.login resp sess s).2 = some a ∧
    tokenManager.getRefreshToken (useAuthStore.login resp sess s).2 = some r ∧
    (useAuthStore.login resp sess s).2.authToken = some a ∧
    (useAuthStore.login resp sess s).2.accessToken = some a := by
  simp [useAuthStore.login, authAPI.login, tokenManager.setAccessToken,
        tokenManager.setRefreshToken, tokenManager.getAccessToken, tokenManager.getRefreshToken,
        isAuthenticated, truthy, ha, hane, hr, hrne, hu]

/-- C7 witness: the login success postcondition at a concrete response. -/
theorem login_success_postcondition_witness :
    isAuthenticated (useAuthStore.login sampleLoginResponse anonSession emptyStorage).1 = true ∧
    (useAuthStore.login sampleLoginResponse anonSession emptyStorage).1.user = some "u" ∧
    (useAuthStore.login sampleLoginResponse anonSession emptyStorage).1.token = some "acc" ∧
    tokenManager.getAccessToken (useAuthStore.login sampleLoginResponse anonSession
      emptyStorage).2 = some "acc" ∧
    tokenManager.getRefreshToken (useAuthStore.login sampleLoginResponse anonSession
      emptyStorage).2 = some "ref" ∧
    (useAuthStore.login sampleLoginResponse anonSession emptyStorage).2.authToken
      = some "acc" ∧
    (useAuthStore.login sampleLoginResponse anonSession emptyStorage).2.accessToken
      = some "acc" :=
  login_success_postcondition sampleLoginResponse anonSession emptyStorage "acc" "ref" "u"
    rfl (by decide) rfl (by decide) rfl

/-- C8: a failed login attempted from an unauthenticated state with no stored
tokens leaves the session unauthenticated with `user` unchanged, stores no
tokens (and issues no refresh call), and sets the store's `error` to the
server-reported `message`, falling back to `detail` and only then to the
generic `"Login failed"` when the server supplies neither. -/
theorem login_failure_postcondition (rb : String → RefreshResult) (e : ErrorResponse)
    (cfg : Config) (sess : Session) (w : World)
    (hs : w.storage = emptyStorage) (hc : cfg.retryFlag = false) (htok : sess.token = none) :
    isAuthenticated (loginOnError rb e cfg sess w).1 = false ∧
    (loginOnError rb e cfg sess w).1.token = none ∧
    (loginOnError rb e cfg sess w).1.user = sess.user ∧
    (loginOnError rb e cfg sess w).2.storage = emptyStorage ∧
    (loginOnError rb e cfg sess w).2.refreshLog = w.refreshLog ∧
    (loginOnError rb e cfg sess w).1.error = some (loginFailureMessage e) ∧
    (∀ m, e.message = some m → m ≠ "" → loginFailureMessage e = m) ∧
    (e.message = none → e.detail = none → loginFailureMessage e = "Login failed") := by
  have hw : ((responseErrorInterceptor rb e.status cfg w).2.storage = emptyStorage ∧
      (responseErrorInterceptor rb e.status cfg w).2.refreshLog = w.refreshLog) := by
    by_cases h1 : e.status = some 401 ∧ cfg.retryFlag = false
    · have h2 : truthy (tokenManager.getRefreshToken w.storage) = false := by
        simp [tokenManager.getRefreshToken, hs, emptyStorage, truthy]
      simp [responseErrorInterceptor, tokenManager.clearTokens, h1, h2]
    · simp [responseErrorInterceptor, if_neg h1, hs]
  refine ⟨?_, ?_, ?_, ?_, ?_, ?_, ?_, ?_⟩
  · simp [loginOnError, isAuthenticated, truthy, htok]
  · simp [loginOnError, htok]
  · simp [loginOnError]
  · simpa [loginOnError] using hw.1
  · simpa [loginOnError] using hw.2
  · simp [loginOnError]
  · intro m hm hmne
    simp [loginFailureMessage, jsOr, truthy, hm, hmne]
  · intro hm hd
    simp [loginFailureMessage, jsOr, truthy, hm, hd]

/-- C8 witness: a concrete failed login from the anonymous state sets the
server-reported message and leaves everything unauthenticated and empty. -/
theorem login_failure_postcondition_witness :
    isAuthenticated (loginOnError rbAlwaysFail sampleErr freshCfg anonSession emptyWorld).1
      = false ∧
    (loginOnError rbAlwaysFail sampleErr freshCfg anonSession emptyWorld).2.storage
      = emptyStorage ∧
    (loginOnError rbAlwaysFail sampleErr freshCfg anonSession emptyWorld).2.refreshLog
      = emptyWorld.refreshLog ∧
    (loginOnError rbAlwaysFail sampleErr freshCfg anonSession emptyWorld).1.error
      = some "Invalid credentials" := by
  have h := login_failure_postcondition rbAlwaysFail sampleErr freshCfg anonSession emptyWorld
    rfl rfl rfl
  refine ⟨h.1, h.2.2.2.1, h.2.2.2.2.1, ?_⟩
  rw [h.2.2.2.2.2.1]
  rw [h.2.2.2.2.2.2.1 "Invalid credentials" rfl (by decide)]

end EaseApply
